import Mathlib

/-! Verification of the payment lambdas in src/stripe_webhook/main.go: the Stripe
webhook reconciler (`webhook`), the payment confirmation handler (`confirmPayment`),
the payment-intent creation handler (`createPaymentIntent`) and the customer
creation handler (`createCustomer`).  The database is modelled as explicit state
(lists of rows for the Users and TransactionHistory tables); remote calls (Stripe
API, SQL exec) are modelled with explicit failure oracles so that every error
branch of the Go code is represented.  Monetary amounts are carried as rationals;
the Go expression float64(amount) / 100.0 is modelled by exact division, and the
deviation introduced by the float64 representation is treated separately through
the `dyadicRational` predicate (every finite float64 value is a dyadic rational). -/

namespace Betchya

/-- Row of the Users table.  The Go `User` struct also carries PhoneNumber,
DateOfBirth, AccountVerificationStatus, CreatedAt and UpdatedAt; those columns are
never branched on or written by any handler, so they are omitted here.  `stripeID`
models the nullable `StripeID *string` column. -/
structure UserRow where
  userID : String
  username : String
  email : String
  accountBalance : ℚ
  stripeID : Option String
deriving DecidableEq

/-- Row of the TransactionHistory table, as written by `insertTransaction` and
updated by `updateTransactionHistory`. -/
structure TransactionRow where
  transactionID : String
  userID : String
  transactionType : String
  amount : ℚ
  transactionStatus : String
  transactionDate : Nat
deriving DecidableEq

/-- The persisted state: the Users and TransactionHistory tables. -/
structure DB where
  users : List UserRow
  transactionHistory : List TransactionRow
deriving DecidableEq

/-- The `PaymentIntent` struct embedded in a webhook event (id, amount in cents,
currency, description, customer). -/
structure PaymentIntent where
  id : String
  amount : ℤ
  currency : String
  description : String
  customer : String
deriving DecidableEq

/-- The `StripeData` wrapper of a webhook event. -/
structure StripeData where
  object : PaymentIntent
deriving DecidableEq

/-- The decoded `StripeWebhookEvent` (event type plus nested payment intent). -/
structure StripeWebhookEvent where
  type : String
  data : StripeData
deriving DecidableEq

/-- The response returned to API Gateway: status code and body.  The constant
Content-Type header set by some handlers is never branched on and is omitted. -/
structure APIGatewayProxyResponse where
  statusCode : Nat
  body : String
deriving DecidableEq

/-- The part of an APIGatewayProxyRequest the `webhook` handler reads: the decoded
body (`none` models a body on which json.Unmarshal fails) and the caller identity
`request.RequestContext.Identity.CognitoIdentityPoolID`. -/
structure WebhookRequest where
  body : Option StripeWebhookEvent
  cognitoIdentityPoolID : String
deriving DecidableEq

/-- Environment of one `webhook` invocation: failure oracles for the two SQL
statements (`some e` means db.Exec fails with message `e`) and the current time
(`time.Now()` at the call). -/
structure WebhookEnv where
  historyFail : Option String
  balanceFail : Option String
  now : Nat
deriving DecidableEq

/-- Result of one `webhook` invocation: the API Gateway response, the Go error
return value, and the database state after the call. -/
structure WebhookResult where
  response : APIGatewayProxyResponse
  error : Option String
  db : DB
deriving DecidableEq

/-- The value added to AccountBalance by `updateUserBalance`.  The Go source
computes `float64(amount) / 100.0`; it is modelled here by exact rational
division, and the rounding that float64 introduces on top of this exact value is
analysed through `dyadicRational` below. -/
def balanceDelta (amount : ℤ) : ℚ :=
  (amount : ℚ) / 100

/-- Go `updateUserBalance`: `UPDATE Users SET AccountBalance = AccountBalance + ?
WHERE UserID = ?`.  Every row whose UserID matches gets the delta added; a failing
db.Exec is modelled by the `fail` oracle and wraps the message exactly as the Go
code does with fmt.Errorf. -/
def updateUserBalance (fail : Option String) (db : DB) (userID : String)
    (amount : ℤ) : Except String DB :=
  match fail with
  | some e => .error ("updateUserBalance: " ++ e)
  | none => .ok { db with users := db.users.map fun u =>
      if u.userID == userID then
        { u with accountBalance := u.accountBalance + balanceDelta amount }
      else u }

/-- Go `updateTransactionHistory`: `UPDATE TransactionHistory SET
TransactionStatus = ?, TransactionDate = ? WHERE TransactionID = ?`.  Note this is
an UPDATE, not an INSERT: rows that match get the new status and date, and when no
row matches the statement affects zero rows and reports no error. -/
def updateTransactionHistory (fail : Option String) (db : DB)
    (transactionID status : String) (transactionDate : Nat) : Except String DB :=
  match fail with
  | some e => .error ("updateTransactionHistory: " ++ e)
  | none => .ok { db with transactionHistory := db.transactionHistory.map fun t =>
      if t.transactionID == transactionID then
        { t with transactionStatus := status, transactionDate := transactionDate }
      else t }

/-- Go `webhook` handler.  On an unmarshal failure it returns 500 with body
"Error processing request" and a nil error.  On a payment_intent.succeeded event
it runs `updateTransactionHistory` (status "Completed", date time.Now()) and then
`updateUserBalance` for the caller identity with the event amount; each failure
yields a 500 response and a nil error, with the database reflecting the
statements that did commit.  Any other event type is a no-op returning 200. -/
def webhook (env : WebhookEnv) (request : WebhookRequest) (db : DB) :
    WebhookResult :=
  match request.body with
  | none => ⟨⟨500, "Error processing request"⟩, none, db⟩
  | some webhookEvent =>
      if webhookEvent.type == "payment_intent.succeeded" then
        match updateTransactionHistory env.historyFail db
            webhookEvent.data.object.id "Completed" env.now with
        | .error _ => ⟨⟨500, "Failed to update transaction history"⟩, none, db⟩
        | .ok db1 =>
            match updateUserBalance env.balanceFail db1
                request.cognitoIdentityPoolID webhookEvent.data.object.amount with
            | .error _ => ⟨⟨500, "Failed to update user balance"⟩, none, db1⟩
            | .ok db2 =>
                ⟨⟨200, "Received confirmation from Stripe: "
                    ++ webhookEvent.data.object.description⟩, none, db2⟩
      else
        ⟨⟨200, "Received confirmation from Stripe: "
            ++ webhookEvent.data.object.description⟩, none, db⟩

/-- Lookup of a user row, modelling `db.QueryRow("SELECT * FROM Users WHERE
UserID = ?", userID)` which returns the first matching row or no row. -/
def findUser (db : DB) (userID : String) : Option UserRow :=
  db.users.find? fun u => u.userID == userID

/-- The AccountBalance of a user (0 if the user does not exist), used to state
balance properties. -/
def balanceOf (db : DB) (userID : String) : ℚ :=
  ((db.users.find? fun u => u.userID == userID).map (·.accountBalance)).getD 0

/-- Concrete user with no Stripe customer reference and zero balance. -/
def userU1 : UserRow :=
  ⟨"u1", "User One", "u1@example.com", 0, none⟩

/-- Database with the single user u1 and an empty TransactionHistory table. -/
def dbNoHistory : DB :=
  ⟨[userU1], []⟩

/-- A pending deposit record for intent pi_1 owned by u1. -/
def rowPending : TransactionRow :=
  ⟨"pi_1", "u1", "Deposit", 2000, "Pending", 0⟩

/-- Database with user u1 and the pending record for intent pi_1. -/
def dbPending : DB :=
  ⟨[userU1], [rowPending]⟩

/-- Webhook environment in which both SQL statements commit. -/
def envOK : WebhookEnv :=
  ⟨none, none, 5⟩

/-- A payment_intent.succeeded event for intent pi_1 with amount 2000 cents. -/
def evSucceeded : StripeWebhookEvent :=
  ⟨"payment_intent.succeeded", ⟨⟨"pi_1", 2000, "usd", "Deposit of 2000", "cus_1"⟩⟩⟩

/-- Webhook request delivering `evSucceeded` under caller identity u1. -/
def reqSucceeded : WebhookRequest :=
  ⟨some evSucceeded, "u1"⟩

/-- A payment_intent.succeeded event for intent pi_x which no TransactionHistory
row mentions, delivered under caller identity u1. -/
def reqUnseen : WebhookRequest :=
  ⟨some ⟨"payment_intent.succeeded", ⟨⟨"pi_x", 2000, "usd", "Deposit", "cus_1"⟩⟩⟩, "u1"⟩

/-- Claim C1 (code bug evidence): the terminal-success ledger effect of the
webhook is not idempotent.  Applying the payment_intent.succeeded effect for
intent pi_1 (amount 2000) twice to a ledger where u1 has balance 0 leaves the
TransactionHistory table identical after the first and second application, but
the balance is 20 after one application and 40 after two: the second application
is not a no-op on the balance, contradicting the claimed contract. -/
theorem c1_second_application_doubles_balance :
    balanceOf (webhook envOK reqSucceeded dbPending).db "u1" = 20 ∧
    balanceOf (webhook envOK reqSucceeded
        (webhook envOK reqSucceeded dbPending).db).db "u1" = 40 ∧
    (webhook envOK reqSucceeded
        (webhook envOK reqSucceeded dbPending).db).db.transactionHistory =
      (webhook envOK reqSucceeded dbPending).db.transactionHistory := by
  have h1 : webhook envOK reqSucceeded dbPending =
      ⟨⟨200, "Received confirmation from Stripe: Deposit of 2000"⟩, none,
        ⟨[⟨"u1", "User One", "u1@example.com", 20, none⟩],
         [⟨"pi_1", "u1", "Deposit", 2000, "Completed", 5⟩]⟩⟩ := by
    simp [webhook, updateTransactionHistory, updateUserBalance, balanceDelta,
      envOK, reqSucceeded, evSucceeded, dbPending, rowPending, userU1]
    norm_num
  have h2 : webhook envOK reqSucceeded
      (⟨[⟨"u1", "User One", "u1@example.com", 20, none⟩],
        [⟨"pi_1", "u1", "Deposit", 2000, "Completed", 5⟩]⟩ : DB) =
      ⟨⟨200, "Received confirmation from Stripe: Deposit of 2000"⟩, none,
        ⟨[⟨"u1", "User One", "u1@example.com", 40, none⟩],
         [⟨"pi_1", "u1", "Deposit", 2000, "Completed", 5⟩]⟩⟩ := by
    simp [webhook, updateTransactionHistory, updateUserBalance, balanceDelta,
      envOK, reqSucceeded, evSucceeded]
    norm_num
  rw [h1, h2]
  refine ⟨?_, ?_, rfl⟩ <;> simp [balanceOf]

/-- Claim C2 (code bug evidence): on a payment_intent.succeeded event for an
intent id (pi_x) for which no TransactionRecord exists, the webhook creates no
TransactionRecord at all (the SQL UPDATE matches zero rows), yet it still
increments the caller balance by the event amount. -/
theorem c2_unseen_intent_creates_no_record :
    (webhook envOK reqUnseen dbNoHistory).db.transactionHistory = [] ∧
    balanceOf (webhook envOK reqUnseen dbNoHistory).db "u1" = 20 ∧
    (webhook envOK reqUnseen dbNoHistory).response.statusCode = 200 := by
  have h1 : webhook envOK reqUnseen dbNoHistory =
      ⟨⟨200, "Received confirmation from Stripe: Deposit"⟩, none,
        ⟨[⟨"u1", "User One", "u1@example.com", 20, none⟩], []⟩⟩ := by
    simp [webhook, updateTransactionHistory, updateUserBalance, balanceDelta,
      envOK, reqUnseen, dbNoHistory, userU1]
    norm_num
  rw [h1]
  refine ⟨rfl, ?_, rfl⟩
  simp [balanceOf]

/-- Claim C10: the webhook handler returns a nil Go error on every path; failures
are signalled only through the HTTP status code and body of the response. -/
theorem c10_webhook_error_always_nil (env : WebhookEnv) (request : WebhookRequest)
    (db : DB) : (webhook env request db).error = none := by
  unfold webhook
  repeat first
    | rfl
    | split

/-- Stripe payment intent status, as switched on by `confirmPayment`.  The Go
code switches on the string constants of the stripe-go package; the closed cases
here are exactly the cases of that switch, and `unhandled s` is its default case
carrying the raw status string. -/
inductive PIStatus where
  | requiresAction
  | succeeded
  | requiresConfirmation
  | unhandled (s : String)
deriving DecidableEq

/-- The raw status string, as interpolated into response bodies by
`string(pi.Status)` in the Go code. -/
def PIStatus.toStr : PIStatus → String
  | .requiresAction => "requires_action"
  | .succeeded => "succeeded"
  | .requiresConfirmation => "requires_confirmation"
  | .unhandled s => s

/-- The payment intent value returned by a successful `paymentintent.Confirm`
call: intent id, reported status, and amount in cents. -/
structure ConfirmedPI where
  id : String
  status : PIStatus
  amount : ℤ
deriving DecidableEq

/-- Decoded body of a confirm request (`ConfirmPaymentRequest` in Go). -/
structure ConfirmPaymentRequest where
  paymentIntentID : String
deriving DecidableEq

/-- Result of one `confirmPayment` invocation: response, Go error return,
database state, the number of `paymentintent.Confirm` calls issued, and the
number of `insertTransaction` ledger writes attempted. -/
structure ConfirmResult where
  response : APIGatewayProxyResponse
  error : Option String
  db : DB
  confirmCalls : Nat
  ledgerWrites : Nat
deriving DecidableEq

/-- Go `insertTransaction`: `INSERT INTO TransactionHistory (TransactionID,
UserID, TransactionType, Amount, TransactionStatus, TransactionDate) VALUES
(...)`.  There is no uniqueness constraint modelled, matching the raw INSERT; a
failing db.Exec is modelled by the `fail` oracle.  The Go code passes the amount
as float64; the stored amount is modelled as the exact rational. -/
def insertTransaction (fail : Option String) (db : DB)
    (transactionID userID transactionType transactionStatus : String)
    (transactionDate : Nat) (amount : ℤ) : Except String DB :=
  match fail with
  | some e => .error ("error inserting new transaction: " ++ e)
  | none => .ok { db with transactionHistory := db.transactionHistory ++
      [⟨transactionID, userID, transactionType, (amount : ℚ), transactionStatus,
        transactionDate⟩] }

/-- Go `confirmPayment` handler.  `confirms i` is the outcome of the (i+1)-th
`paymentintent.Confirm` call of this invocation.  A malformed body returns 400
with the unmarshal error as the Go error return.  The status switch mirrors the
Go switch exactly; note that in the two Succeeded branches the error returned by
`insertTransaction` is discarded by the Go code (the call appears as a bare
statement), which is modelled by keeping the unchanged database on failure and
returning a 200 response with a nil error regardless. -/
def confirmPayment (confirms : Nat → Except String ConfirmedPI)
    (insertFail : Option String) (body : Option ConfirmPaymentRequest)
    (callerID : String) (now : Nat) (db : DB) : ConfirmResult :=
  match body with
  | none => ⟨⟨400, ""⟩, some "json unmarshal error", db, 0, 0⟩
  | some _ =>
      match confirms 0 with
      | .error e => ⟨⟨500, ""⟩, some e, db, 1, 0⟩
      | .ok pi =>
          match pi.status with
          | .requiresAction =>
              ⟨⟨200, "Additional authentication required. Possible issues with 3D secure auth \n "
                  ++ pi.status.toStr⟩, none, db, 1, 0⟩
          | .succeeded =>
              let db1 := match insertTransaction insertFail db pi.id callerID
                  "Deposit" "Pending" now pi.amount with
                | .ok d => d
                | .error _ => db
              ⟨⟨200, "Payment succeeded and is pending. Funds will be available once payment is confrimed from Stripe."⟩,
                none, db1, 1, 1⟩
          | .requiresConfirmation =>
              match confirms 1 with
              | .error _ =>
                  ⟨⟨500, "Failed to confirm payment intent"⟩, none, db, 2, 0⟩
              | .ok piAttemptTwo =>
                  if piAttemptTwo.status = .succeeded then
                    let db1 := match insertTransaction insertFail db pi.id callerID
                        "Deposit" "Pending" now piAttemptTwo.amount with
                      | .ok d => d
                      | .error _ => db
                    ⟨⟨200, "Payment succeeded and is pending. Funds will be available once payment is confrimed from Stripe."⟩,
                      none, db1, 2, 1⟩
                  else
                    ⟨⟨400, "Tried to confirm the payment again, but failed... \n"
                        ++ piAttemptTwo.status.toStr⟩, none, db, 2, 0⟩
          | .unhandled _ =>
              ⟨⟨400, "Unhandled payment intent status \n " ++ pi.status.toStr⟩,
                none, db, 1, 0⟩

/-- Confirm oracle: first call reports RequiresConfirmation, the retry reports
Succeeded. -/
def oracleRetrySucceeds : Nat → Except String ConfirmedPI := fun i =>
  if i = 0 then .ok ⟨"pi_1", .requiresConfirmation, 2000⟩
  else .ok ⟨"pi_1", .succeeded, 2000⟩

/-- Confirm oracle: every call reports RequiresConfirmation. -/
def oracleRetryStalls : Nat → Except String ConfirmedPI := fun _ =>
  .ok ⟨"pi_1", .requiresConfirmation, 2000⟩

/-- Confirm oracle: every call reports Succeeded. -/
def oracleFirstSucceeds : Nat → Except String ConfirmedPI := fun _ =>
  .ok ⟨"pi_1", .succeeded, 2000⟩

/-- Confirm oracle: every call reports RequiresAction. -/
def oracleRequiresAction : Nat → Except String ConfirmedPI := fun _ =>
  .ok ⟨"pi_1", .requiresAction, 2000⟩

/-- Concrete confirm request for intent pi_1. -/
def reqConfirmPi1 : ConfirmPaymentRequest := ⟨"pi_1"⟩

/-- Claim C3: bounded retry.  If the first confirm call reports
RequiresConfirmation then, when the retry reports Succeeded, exactly 2 confirm
calls are issued and exactly one ledger write is applied; when the retry reports
RequiresConfirmation again, exactly 2 confirm calls are issued, zero ledger
writes are applied, and the handler returns a 400 failure outcome whose body
reports the status of the retry.  In both cases the call count is exactly 2, so
no further retry is attempted. -/
theorem c3_bounded_retry (confirms : Nat → Except String ConfirmedPI)
    (req : ConfirmPaymentRequest) (callerID : String) (now : Nat) (db : DB)
    (pi1 pi2 : ConfirmedPI)
    (h0 : confirms 0 = .ok pi1) (hrc : pi1.status = .requiresConfirmation)
    (h1 : confirms 1 = .ok pi2) :
    (pi2.status = .succeeded →
      (confirmPayment confirms none (some req) callerID now db).confirmCalls = 2 ∧
      (confirmPayment confirms none (some req) callerID now db).ledgerWrites = 1) ∧
    (pi2.status = .requiresConfirmation →
      (confirmPayment confirms none (some req) callerID now db).confirmCalls = 2 ∧
      (confirmPayment confirms none (some req) callerID now db).ledgerWrites = 0 ∧
      (confirmPayment confirms none (some req) callerID now db).response.statusCode = 400 ∧
      (confirmPayment confirms none (some req) callerID now db).response.body =
        "Tried to confirm the payment again, but failed... \n" ++ pi2.status.toStr) := by
  constructor
  · intro hs
    simp [confirmPayment, h0, hrc, h1, hs, insertTransaction]
  · intro hs
    simp [confirmPayment, h0, hrc, h1, hs]

/-- Witness for C3: the two-element outcome sequences realize the hypotheses of
`c3_bounded_retry`; with outcomes [RequiresConfirmation, Succeeded] the handler
issues 2 confirm calls and 1 ledger write. -/
theorem c3_bounded_retry_witness :
    (confirmPayment oracleRetrySucceeds none (some reqConfirmPi1) "u1" 0
        dbNoHistory).confirmCalls = 2 ∧
    (confirmPayment oracleRetrySucceeds none (some reqConfirmPi1) "u1" 0
        dbNoHistory).ledgerWrites = 1 :=
  (c3_bounded_retry oracleRetrySucceeds reqConfirmPi1 "u1" 0 dbNoHistory
    ⟨"pi_1", .requiresConfirmation, 2000⟩ ⟨"pi_1", .succeeded, 2000⟩
    rfl rfl rfl).1 rfl

/-- Dyadic rationals: the values expressible as an integer times a power of two.
Every finite IEEE-754 float64 value is of the form m * 2^e with integer m and e,
so every value the Go expression float64(amount) / 100.0 can produce is a dyadic
rational. -/
def dyadicRational (q : ℚ) : Prop :=
  ∃ (k : ℕ) (m : ℤ), q * 2 ^ k = (m : ℚ)

/-- Claim C4 (code bug evidence): the exact fixed-point balance delta for amount
2000 is 20.00 units, but for amount 1 the exact delta 1/100 is not a dyadic
rational, hence no float64 value - in particular not the value computed by the
Go expression float64(amount) / 100.0 in `updateUserBalance` - can equal it: the
float-based computation cannot be exact for all amounts. -/
theorem c4_balance_delta_not_float_representable :
    balanceDelta 2000 = 20 ∧ ¬ dyadicRational (balanceDelta 1) := by
  constructor
  · norm_num [balanceDelta]
  · rintro ⟨k, m, h⟩
    have hd : balanceDelta 1 = 1 / 100 := by norm_num [balanceDelta]
    rw [hd] at h
    have h2 : (2 : ℚ) ^ k = 100 * (m : ℚ) := by
      field_simp at h
      linarith
    have h3 : (2 : ℤ) ^ k = 100 * m := by exact_mod_cast h2
    have h5 : (5 : ℤ) ∣ 2 ^ k := ⟨20 * m, by linarith⟩
    have hp : Prime (5 : ℤ) := by
      rw [Int.prime_iff_natAbs_prime]
      norm_num
    have h6 := hp.dvd_of_dvd_pow h5
    norm_num at h6

/-- Claim C5 (code bug evidence): when the first confirm call reports Succeeded
and the ledger write fails (db.Exec error), `confirmPayment` discards the error
returned by `insertTransaction` and returns a 200 success response with a nil Go
error and an unchanged ledger: the remote-call failure is suppressed and a
success outcome is returned. -/
theorem c5_ledger_failure_suppressed :
    (confirmPayment oracleFirstSucceeds (some "Error 1205: lock wait timeout")
        (some reqConfirmPi1) "u1" 0 dbNoHistory).response =
      ⟨200, "Payment succeeded and is pending. Funds will be available once payment is confrimed from Stripe."⟩ ∧
    (confirmPayment oracleFirstSucceeds (some "Error 1205: lock wait timeout")
        (some reqConfirmPi1) "u1" 0 dbNoHistory).error = none ∧
    (confirmPayment oracleFirstSucceeds (some "Error 1205: lock wait timeout")
        (some reqConfirmPi1) "u1" 0 dbNoHistory).db = dbNoHistory := by
  refine ⟨?_, ?_, ?_⟩ <;> simp [confirmPayment, oracleFirstSucceeds, insertTransaction]

/-- Claim C8: when the confirm call reports RequiresAction, `confirmPayment`
returns a terminal 200 outcome with a nil error whose body signals that
additional authentication is required, and performs no ledger mutation: the
database (both tables, hence every TransactionRecord and every balance) is
returned unchanged and no ledger write is attempted. -/
theorem c8_requires_action_no_ledger_mutation
    (confirms : Nat → Except String ConfirmedPI) (insertFail : Option String)
    (req : ConfirmPaymentRequest) (callerID : String) (now : Nat) (db : DB)
    (pi1 : ConfirmedPI) (h0 : confirms 0 = .ok pi1)
    (hra : pi1.status = .requiresAction) :
    (confirmPayment confirms insertFail (some req) callerID now db).response.statusCode = 200 ∧
    (confirmPayment confirms insertFail (some req) callerID now db).response.body =
      "Additional authentication required. Possible issues with 3D secure auth \n "
        ++ PIStatus.requiresAction.toStr ∧
    (confirmPayment confirms insertFail (some req) callerID now db).error = none ∧
    (confirmPayment confirms insertFail (some req) callerID now db).db = db ∧
    (confirmPayment confirms insertFail (some req) callerID now db).ledgerWrites = 0 := by
  refine ⟨?_, ?_, ?_, ?_, ?_⟩ <;> simp [confirmPayment, h0, hra]

/-- Witness for C8: a confirm call reporting RequiresAction on the concrete
ledger leaves it untouched and returns the 200 action-needed outcome. -/
theorem c8_requires_action_witness :
    (confirmPayment oracleRequiresAction none (some reqConfirmPi1) "u1" 0
        dbPending).response.statusCode = 200 ∧
    (confirmPayment oracleRequiresAction none (some reqConfirmPi1) "u1" 0
        dbPending).response.body =
      "Additional authentication required. Possible issues with 3D secure auth \n "
        ++ PIStatus.requiresAction.toStr ∧
    (confirmPayment oracleRequiresAction none (some reqConfirmPi1) "u1" 0
        dbPending).error = none ∧
    (confirmPayment oracleRequiresAction none (some reqConfirmPi1) "u1" 0
        dbPending).db = dbPending ∧
    (confirmPayment oracleRequiresAction none (some reqConfirmPi1) "u1" 0
        dbPending).ledgerWrites = 0 :=
  c8_requires_action_no_ledger_mutation oracleRequiresAction none reqConfirmPi1
    "u1" 0 dbPending ⟨"pi_1", .requiresAction, 2000⟩ rfl rfl

/-- Modelled from the spec: the processor webhook delivery contract expects a
retry on any non-2xx response, and the error taxonomy classifies a permanent
(non-retryable) fault as a client fault, i.e. a 4xx status code, while a 5xx
status code is the transient server-fault classification on which the processor
keeps redelivering. -/
def reportedNonRetryable (r : APIGatewayProxyResponse) : Prop :=
  400 ≤ r.statusCode ∧ r.statusCode < 500

/-- Modelled from the spec: the processor redelivers a webhook whenever the
response status code is outside the 2xx range. -/
def retriedByProcessor (r : APIGatewayProxyResponse) : Prop :=
  ¬ (200 ≤ r.statusCode ∧ r.statusCode < 300)

/-- A response whose status code lies in the 2xx success range. -/
def successStatus (r : APIGatewayProxyResponse) : Prop :=
  200 ≤ r.statusCode ∧ r.statusCode < 300

/-- Claim C6 counterexample: a malformed event body is answered with status 500,
which is not a 4xx permanent-fault classification, so the failure is not
reported as non-retryable as the claim states. -/
theorem c6_malformed_body_counterexample :
    (webhook envOK ⟨none, "u1"⟩ dbNoHistory).response.statusCode = 500 ∧
    ¬ reportedNonRetryable (webhook envOK ⟨none, "u1"⟩ dbNoHistory).response := by
  constructor
  · rfl
  · intro hc
    simp [webhook, reportedNonRetryable] at hc

/-- Claim C6 as amended: for every request whose event body fails to parse, the
webhook returns status 500 with body "Error processing request" and a nil Go
error - the transient server-fault classification, on which the processor
delivery contract redelivers the event - rather than a permanent 4xx fault. -/
theorem c6_malformed_body_reported_retryable (env : WebhookEnv) (cid : String)
    (db : DB) :
    (webhook env ⟨none, cid⟩ db).response = ⟨500, "Error processing request"⟩ ∧
    (webhook env ⟨none, cid⟩ db).error = none ∧
    retriedByProcessor (webhook env ⟨none, cid⟩ db).response := by
  refine ⟨rfl, rfl, ?_⟩
  unfold retriedByProcessor
  intro hc
  simp [webhook] at hc

/-- Decoded body of an intent-creation request (`PaymentIntentRequest` in Go:
amount, currency, payment method reference). -/
structure PaymentIntentRequest where
  amount : ℤ
  currency : String
  paymentMethodID : String
deriving DecidableEq

/-- Result of one `createPaymentIntent` invocation: response, Go error return,
and the number of processor calls issued (paymentmethod.Attach and
paymentintent.New).  The handler contains no customer-creation call at all, so
these two are the only processor calls it can ever issue. -/
structure CreatePIResult where
  response : APIGatewayProxyResponse
  error : Option String
  attachCalls : Nat
  createIntentCalls : Nat
deriving DecidableEq

/-- Go `createPaymentIntent` handler.  `attach` is the outcome of the
paymentmethod.Attach call and `newIntent` the outcome of paymentintent.New
(returning the fresh intent id).  A user without a Stripe customer ID is
answered before any processor call with status 200 and an explanatory body.  The
success body is the JSON object produced by json.Marshal for the single-key map;
the unreachable marshal-failure branch of the Go code is not modelled, since
marshalling a map of strings cannot fail. -/
def createPaymentIntent (attach : Except String Unit)
    (newIntent : Except String String) (body : Option PaymentIntentRequest)
    (callerID : String) (db : DB) : CreatePIResult :=
  match body with
  | none => ⟨⟨400, ""⟩, some "json unmarshal error", 0, 0⟩
  | some _ =>
      match findUser db callerID with
      | none =>
          ⟨⟨500, "Error retrieving user from database"⟩,
            some "sql: no rows in result set", 0, 0⟩
      | some user =>
          match user.stripeID with
          | none =>
              ⟨⟨200, "Customer does not have a Stripe customer ID. Are they registered as a customer?"⟩,
                none, 0, 0⟩
          | some _ =>
              match attach with
              | .error e => ⟨⟨500, ""⟩, some e, 1, 0⟩
              | .ok _ =>
                  match newIntent with
                  | .error e => ⟨⟨500, ""⟩, some e, 1, 1⟩
                  | .ok piID =>
                      ⟨⟨200, "\x7b\"payment_intent_id\":\"" ++ piID ++ "\"\x7d"⟩,
                        none, 1, 1⟩

/-- Claim C7 counterexample: for the user u1, who holds no Stripe customer
reference, the intent-creation call returns status 200 - a success status code,
not a precondition-failure outcome as the claim states. -/
theorem c7_missing_customer_counterexample :
    (createPaymentIntent (.ok ()) (.ok "pi_9") (some ⟨2000, "usd", "pm_1"⟩) "u1"
        dbNoHistory).response.statusCode = 200 ∧
    successStatus (createPaymentIntent (.ok ()) (.ok "pi_9")
        (some ⟨2000, "usd", "pm_1"⟩) "u1" dbNoHistory).response := by
  constructor
  · rfl
  · unfold successStatus
    constructor <;> simp [createPaymentIntent, findUser, dbNoHistory, userU1, List.find?]

/-- Claim C7 as amended: for every intent-submission request by a user who holds
no processor customer reference, the operation terminates immediately with
status 200 and the explanatory body "Customer does not have a Stripe customer
ID. Are they registered as a customer?" (a success status code rather than a
precondition-failure classification), with a nil Go error, and it issues no
processor call at all - in particular it does not create a processor customer. -/
theorem c7_missing_customer_amended (attach : Except String Unit)
    (newIntent : Except String String) (pir : PaymentIntentRequest)
    (callerID : String) (db : DB) (user : UserRow)
    (hfind : findUser db callerID = some user) (hsid : user.stripeID = none) :
    (createPaymentIntent attach newIntent (some pir) callerID db).response =
      ⟨200, "Customer does not have a Stripe customer ID. Are they registered as a customer?"⟩ ∧
    (createPaymentIntent attach newIntent (some pir) callerID db).error = none ∧
    (createPaymentIntent attach newIntent (some pir) callerID db).attachCalls = 0 ∧
    (createPaymentIntent attach newIntent (some pir) callerID db).createIntentCalls = 0 := by
  refine ⟨?_, ?_, ?_, ?_⟩ <;> simp [createPaymentIntent, hfind, hsid]

/-- Witness for the amended C7: user u1 of the concrete database holds no Stripe
customer reference, and the call returns the 200 explanatory outcome with zero
processor calls. -/
theorem c7_missing_customer_amended_witness :
    (createPaymentIntent (.ok ()) (.ok "pi_9") (some ⟨2000, "usd", "pm_1"⟩) "u1"
        dbNoHistory).response =
      ⟨200, "Customer does not have a Stripe customer ID. Are they registered as a customer?"⟩ ∧
    (createPaymentIntent (.ok ()) (.ok "pi_9") (some ⟨2000, "usd", "pm_1"⟩) "u1"
        dbNoHistory).error = none ∧
    (createPaymentIntent (.ok ()) (.ok "pi_9") (some ⟨2000, "usd", "pm_1"⟩) "u1"
        dbNoHistory).attachCalls = 0 ∧
    (createPaymentIntent (.ok ()) (.ok "pi_9") (some ⟨2000, "usd", "pm_1"⟩) "u1"
        dbNoHistory).createIntentCalls = 0 :=
  c7_missing_customer_amended (.ok ()) (.ok "pi_9") ⟨2000, "usd", "pm_1"⟩ "u1"
    dbNoHistory userU1 rfl rfl

/-- Processor-side customer state threaded through `createCustomer`
invocations: the ids of the customers existing at Stripe, the id Stripe will
assign to the next created customer, and failure flags for the two remote calls
(customer.Get and customer.New). -/
structure Proc where
  customers : List String
  nextID : String
  findFails : Bool
  createFails : Bool
deriving DecidableEq

/-- Go `findCustomerByStripeID`, a wrapper around customer.Get: it fails when
the remote call fails or when no customer with that id exists
(resource_missing), and otherwise returns the found customer, identified here by
its id.  customer.Get never returns a nil customer with a nil error, so the Go
nil-customer fall-through after a successful lookup is unreachable and the
lookup outcome is modelled as this two-case result. -/
def findCustomerByStripeID (p : Proc) (customerID : String) :
    Except String String :=
  if p.findFails then .error "stripe: remote call failed"
  else if customerID ∈ p.customers then .ok customerID
  else .error "resource_missing: no such customer"

/-- Go `UPDATE Users SET stripe_customer_id = ? WHERE UserID = ?`, persisting
the new Stripe customer id onto the User record. -/
def dbSetStripeID (db : DB) (userID customerID : String) : DB :=
  { db with users := db.users.map fun u =>
      if u.userID == userID then { u with stripeID := some customerID } else u }

/-- Result of one `createCustomer` invocation: response, Go error return, the
database and processor state after the call, the number of persisted writes to
the User record, and the customer reference the response conveys (the id
interpolated into the body, `none` on error paths). -/
structure CreateCustomerResult where
  response : APIGatewayProxyResponse
  error : Option String
  db : DB
  proc : Proc
  dbWrites : Nat
  returnedRef : Option String
deriving DecidableEq

/-- Go `createCustomer` handler.  If the caller identity resolves to a user that
already carries a Stripe id, the customer is fetched from Stripe and returned
unchanged with zero writes; a lookup failure is returned as a 500 with the
error.  Otherwise a new Stripe customer is created from the user profile (name,
email, tagged with the local user id as metadata - these fields do not affect
any branch and are not recorded), its id is persisted onto the User record
(`updateFails` models a failing db.Exec for that UPDATE), and the new id is
returned. -/
def createCustomer (db : DB) (p : Proc) (callerID : String)
    (updateFails : Bool) : CreateCustomerResult :=
  match findUser db callerID with
  | none =>
      ⟨⟨500, "Error retrieving user from database"⟩,
        some "sql: no rows in result set", db, p, 0, none⟩
  | some user =>
      match user.stripeID with
      | some sid =>
          match findCustomerByStripeID p sid with
          | .error e =>
              ⟨⟨500, "Error finding customer by Stripe ID: " ++ e⟩, some e,
                db, p, 0, none⟩
          | .ok cid =>
              ⟨⟨200, "Customer already exists with Stripe ID: " ++ cid⟩, none,
                db, p, 0, some cid⟩
      | none =>
          if p.createFails then
            ⟨⟨500, "Error creating new customer in Stripe: stripe: remote call failed"⟩,
              some "stripe: remote call failed", db, p, 0, none⟩
          else
            let c := p.nextID
            let p2 : Proc := { p with customers := c :: p.customers }
            if updateFails then
              ⟨⟨500, "Error updating user with new Stripe ID"⟩,
                some "db: exec failed", db, p2, 0, none⟩
            else
              ⟨⟨200, "Created new customer in Stripe with ID: " ++ c⟩, none,
                dbSetStripeID db callerID c, p2, 1, some c⟩

/-- Finding a user in the Users table after the stripe-id UPDATE returns the
same row with the stripe id set. -/
theorem find_after_setStripeID (l : List UserRow) (uid cid : String) :
    ((l.map fun u =>
        if u.userID == uid then { u with stripeID := some cid } else u).find?
          fun u => u.userID == uid) =
      (l.find? fun u => u.userID == uid).map
        fun u => { u with stripeID := some cid } := by
  induction l with
  | nil => rfl
  | cons a t ih =>
      cases hb : (a.userID == uid) with
      | true =>
          simp only [List.map_cons, List.find?_cons, hb, reduceIte,
            Option.map_some']
      | false =>
          simp only [List.map_cons, List.find?_cons, hb, Bool.false_eq_true,
            reduceIte]
          exact ih

/-- `findUser` after `dbSetStripeID` for the same user id. -/
theorem findUser_dbSetStripeID (db : DB) (uid cid : String) :
    findUser (dbSetStripeID db uid cid) uid =
      (findUser db uid).map fun u => { u with stripeID := some cid } := by
  simp only [findUser, dbSetStripeID]
  exact find_after_setStripeID db.users uid cid

/-- Claim C9: identity-mapping idempotence.  For a user that exists, with both
remote calls healthy and any pre-existing reference valid at the processor,
calling `createCustomer` twice in a row (no intervening processor-side deletion:
the processor state is threaded from the first call into the second) returns the
same non-null customer reference both times; the second call performs zero
persisted writes; the first call performs at most one persisted write; and when
the user already holds a non-null reference the call leaves the database
entirely unchanged (so the reference is never overwritten) and returns exactly
that reference. -/
theorem c9_identity_mapper_idempotent (db : DB) (p : Proc) (uid : String)
    (user : UserRow) (hfind : findUser db uid = some user)
    (hff : p.findFails = false) (hcf : p.createFails = false)
    (hvalid : ∀ s, user.stripeID = some s → s ∈ p.customers) :
    (createCustomer (createCustomer db p uid false).db
        (createCustomer db p uid false).proc uid false).returnedRef =
      (createCustomer db p uid false).returnedRef ∧
    (createCustomer db p uid false).returnedRef ≠ none ∧
    (createCustomer (createCustomer db p uid false).db
        (createCustomer db p uid false).proc uid false).dbWrites = 0 ∧
    (createCustomer db p uid false).dbWrites ≤ 1 ∧
    (user.stripeID ≠ none →
      (createCustomer db p uid false).db = db ∧
      (createCustomer db p uid false).returnedRef = user.stripeID) := by
  cases hsid : user.stripeID with
  | some s =>
      have hmem : s ∈ p.customers := hvalid s hsid
      have h1 : createCustomer db p uid false =
          ⟨⟨200, "Customer already exists with Stripe ID: " ++ s⟩, none, db, p,
            0, some s⟩ := by
        simp [createCustomer, hfind, hsid, findCustomerByStripeID, hff, hmem]
      refine ⟨?_, ?_, ?_, ?_, ?_⟩ <;>
        simp [h1, hsid, createCustomer, hfind, findCustomerByStripeID, hff, hmem]
  | none =>
      have h1 : createCustomer db p uid false =
          ⟨⟨200, "Created new customer in Stripe with ID: " ++ p.nextID⟩, none,
            dbSetStripeID db uid p.nextID,
            { p with customers := p.nextID :: p.customers }, 1,
            some p.nextID⟩ := by
        simp [createCustomer, hfind, hsid, hcf]
      have hfind2 : findUser (dbSetStripeID db uid p.nextID) uid =
          some { user with stripeID := some p.nextID } := by
        rw [findUser_dbSetStripeID, hfind]
        rfl
      have h2 : createCustomer (dbSetStripeID db uid p.nextID)
          { p with customers := p.nextID :: p.customers } uid false =
          ⟨⟨200, "Customer already exists with Stripe ID: " ++ p.nextID⟩, none,
            dbSetStripeID db uid p.nextID,
            { p with customers := p.nextID :: p.customers }, 0,
            some p.nextID⟩ := by
        simp [createCustomer, hfind2, findCustomerByStripeID, hff]
      refine ⟨?_, ?_, ?_, ?_, ?_⟩ <;> simp [h1, h2, hsid]

/-- Witness for C9: for user u1 (no reference yet) with a healthy processor, the
first call maps them to the fresh customer cus_1 with one persisted write, and
the immediately repeated call returns the same reference with zero writes. -/
theorem c9_identity_mapper_idempotent_witness :
    (createCustomer (createCustomer dbNoHistory ⟨[], "cus_1", false, false⟩ "u1"
          false).db
        (createCustomer dbNoHistory ⟨[], "cus_1", false, false⟩ "u1" false).proc
        "u1" false).returnedRef =
      (createCustomer dbNoHistory ⟨[], "cus_1", false, false⟩ "u1"
        false).returnedRef ∧
    (createCustomer dbNoHistory ⟨[], "cus_1", false, false⟩ "u1"
        false).returnedRef ≠ none ∧
    (createCustomer (createCustomer dbNoHistory ⟨[], "cus_1", false, false⟩ "u1"
          false).db
        (createCustomer dbNoHistory ⟨[], "cus_1", false, false⟩ "u1" false).proc
        "u1" false).dbWrites = 0 := by
  have h := c9_identity_mapper_idempotent dbNoHistory ⟨[], "cus_1", false, false⟩
    "u1" userU1 rfl rfl rfl (by intro s hs; simp [userU1] at hs)
  exact ⟨h.1, h.2.1, h.2.2.1⟩

end Betchya
